import Mathlib

/-!
Verification development for the ACE-KILLER core: a shallow embedding of the
process monitor, service-status probe, privilege negotiation, memory-cleaner
scheduler and process tuner, with theorems checking the natural-language
specification against the code.
-/

namespace ACEKiller

/-! ## Windows priority-class constants (win32process) -/

def IDLE_PRIORITY_CLASS : Int := 0x40
def BELOW_NORMAL_PRIORITY_CLASS : Int := 0x4000
def NORMAL_PRIORITY_CLASS : Int := 0x20
def ABOVE_NORMAL_PRIORITY_CLASS : Int := 0x8000
def HIGH_PRIORITY_CLASS : Int := 0x80
def REALTIME_PRIORITY_CLASS : Int := 0x100

/-! ## GameProcessMonitor.check_process_status

`check_process_status(process_name)` first looks the process up; if absent it
returns `(False, False)`.  When the name matches `scanprocess_name`
("SGuard64.exe", compared lowercased), it computes:

* `cpu_affinity_optimized`: from `proc.cpu_affinity()` and
  `cores = psutil.cpu_count()`; when `cores > 0`, true iff the affinity list
  has length one or contains core `cores - 1`; when the affinity query raises
  an access error, true (treat-as-optimized); when `cores` is not positive the
  flag stays false.
* `priority_optimized`: `proc.nice()` is in
  `[IDLE_PRIORITY_CLASS, BELOW_NORMAL_PRIORITY_CLASS]`; when the priority
  query raises, `is_optimized` is set to true directly.
* `is_optimized = priority_optimized or cpu_affinity_optimized` otherwise.

For every other process name the optimization block is skipped and
`is_optimized` stays false.

The OS-dependent observations are passed explicitly: `running` (whether
`is_process_running` found the process), `cores`, `affinityRes` (`none` for
an access error during `cpu_affinity()`), `niceRes` (`none` for an access
error during `nice()`). -/

def scanprocess_name : String := "SGuard64.exe"

/-- Python's `str.lower()` on process names (ASCII), embedded as a character
map so that it evaluates inside the kernel. -/
def strLower (s : String) : String := ⟨s.data.map Char.toLower⟩

def cpuAffinityOptimized (cores : Nat) (affinityRes : Option (List Nat)) : Bool :=
  match affinityRes with
  | none => true
  | some aff =>
      if 0 < cores then aff.length == 1 || aff.contains (cores - 1) else false

def check_process_status (process_name : String) (running : Bool) (cores : Nat)
    (affinityRes : Option (List Nat)) (niceRes : Option Int) : Bool × Bool :=
  if !running then (false, false)
  else if strLower process_name == strLower scanprocess_name then
    let affOpt := cpuAffinityOptimized cores affinityRes
    match niceRes with
    | none => (true, true)
    | some priority =>
        let priorityOptimized :=
          priority == IDLE_PRIORITY_CLASS || priority == BELOW_NORMAL_PRIORITY_CLASS
        (true, priorityOptimized || affOpt)
  else (true, false)

theorem scanprocess_name_lower : strLower scanprocess_name = "sguard64.exe" := by decide

/-- C1 counterexample: on a 4-core system, a running "SGuard64.exe" with the
default all-core affinity `[0,1,2,3]` and Normal priority is reported by
`check_process_status` as already optimized (`is_optimized = true`), because
the all-core affinity set contains the last core (core 3) and the code's
lenient rule accepts that alone; the claim says this configuration is
reported NOT optimized. -/
theorem C1_counterexample :
    check_process_status "SGuard64.exe" true 4 (some [0, 1, 2, 3])
      (some NORMAL_PRIORITY_CLASS) = (true, true) := by
  decide

/-- C1 amended: for a running scanner process whose affinity and priority
queries succeed on a system with at least one core, the check reports
optimized iff the affinity list is a single core, or contains the last core,
or the priority class is Idle or BelowNormal; consequently the default
all-core affinity with Normal priority is reported as ALREADY optimized
(the all-core set contains the last core), so the monitor does not apply
Eco-mode tuning in that scenario. -/
theorem C1_amended_optimized_iff (cores : Nat) (aff : List Nat) (pr : Int)
    (hc : 0 < cores) :
    ((check_process_status "SGuard64.exe" true cores (some aff) (some pr)).2 = true ↔
      (aff.length = 1 ∨ (cores - 1) ∈ aff ∨
        pr = IDLE_PRIORITY_CLASS ∨ pr = BELOW_NORMAL_PRIORITY_CLASS)) ∧
    check_process_status "SGuard64.exe" true cores (some (List.range cores))
      (some NORMAL_PRIORITY_CLASS) = (true, true) := by
  have hbeq : (strLower "SGuard64.exe" == strLower scanprocess_name) = true := by decide
  constructor
  · simp only [check_process_status, cpuAffinityOptimized, hbeq, Bool.not_true,
      Bool.false_eq_true, if_false, if_true]
    simp [hc, Bool.or_eq_true, beq_iff_eq]
    tauto
  · simp only [check_process_status, cpuAffinityOptimized, hbeq, Bool.not_true,
      Bool.false_eq_true, if_false, if_true]
    have hmem : (cores - 1) ∈ List.range cores := List.mem_range.mpr (by omega)
    simp [hc, NORMAL_PRIORITY_CLASS, IDLE_PRIORITY_CLASS, BELOW_NORMAL_PRIORITY_CLASS,
      hmem]

/-- Witness for `C1_amended_optimized_iff` at cores = 4, affinity `[0,1,2,3]`,
Normal priority. -/
theorem C1_amended_witness :
    ((check_process_status "SGuard64.exe" true 4 (some [0, 1, 2, 3])
        (some NORMAL_PRIORITY_CLASS)).2 = true ↔
      (([0, 1, 2, 3] : List Nat).length = 1 ∨ (4 - 1) ∈ ([0, 1, 2, 3] : List Nat) ∨
        NORMAL_PRIORITY_CLASS = IDLE_PRIORITY_CLASS ∨
        NORMAL_PRIORITY_CLASS = BELOW_NORMAL_PRIORITY_CLASS)) ∧
    check_process_status "SGuard64.exe" true 4 (some (List.range 4))
      (some NORMAL_PRIORITY_CLASS) = (true, true) :=
  C1_amended_optimized_iff 4 [0, 1, 2, 3] NORMAL_PRIORITY_CLASS (by decide)

/-- C10: for every running process whose lowercased name differs from
"sguard64.exe", `check_process_status` returns `(running = true,
is_optimized = false)` whatever the observed affinity, core count and
priority: the optimization check is evaluated only for the scanner
process name. -/
theorem C10_non_scanner_unoptimized (name : String)
    (h : strLower name ≠ "sguard64.exe") (cores : Nat)
    (affinityRes : Option (List Nat)) (niceRes : Option Int) :
    check_process_status name true cores affinityRes niceRes = (true, false) := by
  have hbeq : (strLower name == strLower scanprocess_name) = false := by
    rw [scanprocess_name_lower]
    exact beq_eq_false_iff_ne.mpr h
  simp [check_process_status, hbeq]

/-- Witness for `C10_non_scanner_unoptimized` at "ACE-Tray.exe". -/
theorem C10_witness :
    check_process_status "ACE-Tray.exe" true 8 (some [7]) (some IDLE_PRIORITY_CLASS)
      = (true, false) :=
  C10_non_scanner_unoptimized "ACE-Tray.exe" (by decide) 8 (some [7])
    (some IDLE_PRIORITY_CLASS)

/-! ## GameProcessMonitor.check_service_status

`check_service_status(service_name)` first consults `_service_cache`: when the
cached entry has `exists = False` and was checked less than 600 seconds ago it
returns the cached triple without touching the service manager.  Otherwise it
opens the service manager and the service:

* on success it maps the platform status/start-type enums through
  `status_map` / `start_type_map` (default `'unknown'`), caches a positive
  entry and returns `(True, status, start_type)`;
* on a `win32service.error` it extracts the error code, logs unless the code
  is 1060 and the service name is already in the cache, writes a negative
  cache entry `{exists: False, status: 'unknown', start_type: 'unknown',
  last_check: now}` and returns `(False, 'unknown', 'unknown')`;
* on any other exception it logs and returns `(False, 'unknown', 'unknown')`
  without touching the cache.

Time is ℚ (Python `time.time()`); the outcome of the OS query, were it to be
made, is the explicit `osResult` argument; `osInvoked` records whether the
service manager was actually consulted. -/

def SERVICE_STOPPED : Nat := 1
def SERVICE_START_PENDING : Nat := 2
def SERVICE_STOP_PENDING : Nat := 3
def SERVICE_RUNNING : Nat := 4
def SERVICE_CONTINUE_PENDING : Nat := 5
def SERVICE_PAUSE_PENDING : Nat := 6
def SERVICE_PAUSED : Nat := 7

def SERVICE_BOOT_START : Nat := 0
def SERVICE_SYSTEM_START : Nat := 1
def SERVICE_AUTO_START : Nat := 2
def SERVICE_DEMAND_START : Nat := 3
def SERVICE_DISABLED : Nat := 4

def status_map (code : Nat) : String :=
  if code == SERVICE_RUNNING then "running"
  else if code == SERVICE_STOPPED then "stopped"
  else if code == SERVICE_PAUSED then "paused"
  else if code == SERVICE_START_PENDING then "start_pending"
  else if code == SERVICE_STOP_PENDING then "stop_pending"
  else if code == SERVICE_CONTINUE_PENDING then "continue_pending"
  else if code == SERVICE_PAUSE_PENDING then "pause_pending"
  else "unknown"

def start_type_map (code : Nat) : String :=
  if code == SERVICE_AUTO_START then "auto"
  else if code == SERVICE_DEMAND_START then "manual"
  else if code == SERVICE_DISABLED then "disabled"
  else if code == SERVICE_BOOT_START then "boot"
  else if code == SERVICE_SYSTEM_START then "system"
  else "unknown"

structure SvcCacheEntry where
  svcExists : Bool
  status : String
  startType : String
  lastCheck : ℚ
deriving DecidableEq

/-- Outcome of the OS service query, were it to be made: success with the raw
platform status and start-type codes, a `win32service.error` with an optional
extracted error code, or any other exception. -/
inductive SvcQueryResult where
  | ok (statusCode startTypeCode : Nat)
  | svcError (code : Option Int)
  | otherError
deriving DecidableEq

structure SvcResult where
  ret : Bool × String × String
  cache : List (String × SvcCacheEntry)
  osInvoked : Bool
  logged : Bool
deriving DecidableEq

def cacheLookup (cache : List (String × SvcCacheEntry)) (name : String) :
    Option SvcCacheEntry :=
  (cache.find? (fun p => p.1 == name)).map Prod.snd

def cacheInsert (cache : List (String × SvcCacheEntry)) (name : String)
    (e : SvcCacheEntry) : List (String × SvcCacheEntry) :=
  (name, e) :: cache.filter (fun p => p.1 != name)

/-- The query part of `check_service_status` (the body of the outer `try`
after the cache pre-check). -/
def serviceQuery (cache : List (String × SvcCacheEntry)) (name : String)
    (now : ℚ) (osResult : SvcQueryResult) : SvcResult :=
  match osResult with
  | .ok statusCode startTypeCode =>
      let status := status_map statusCode
      let startType := start_type_map startTypeCode
      { ret := (true, status, startType)
        cache := cacheInsert cache name ⟨true, status, startType, now⟩
        osInvoked := true, logged := false }
  | .svcError code =>
      let shouldLog := !(code == some (1060 : Int) && (cacheLookup cache name).isSome)
      { ret := (false, "unknown", "unknown")
        cache := cacheInsert cache name ⟨false, "unknown", "unknown", now⟩
        osInvoked := true, logged := shouldLog }
  | .otherError =>
      { ret := (false, "unknown", "unknown")
        cache := cache, osInvoked := true, logged := true }

def check_service_status (cache : List (String × SvcCacheEntry)) (name : String)
    (now : ℚ) (osResult : SvcQueryResult) : SvcResult :=
  match cacheLookup cache name with
  | some e =>
      if !e.svcExists && now - e.lastCheck < 600 then
        { ret := (e.svcExists, e.status, e.startType), cache := cache
          osInvoked := false, logged := false }
      else serviceQuery cache name now osResult
  | none => serviceQuery cache name now osResult

/-- C2 counterexample: with an empty service cache, a service query failing
with platform error code 5 (access denied, not 1060) DOES write a negative
entry into the service cache, where the claim says only the error-1060 case
is cached. -/
theorem C2_counterexample :
    (check_service_status [] "ACE-BASE" 0 (SvcQueryResult.svcError (some 5))).cache
      = [("ACE-BASE", ⟨false, "unknown", "unknown", 0⟩)] := by
  rfl

/-- C2 amended: every service-query failure raised as a platform service
error — whatever the error code, 1060 or not — returns the Unknown triple
`(False, 'unknown', 'unknown')` AND writes a negative entry into the service
cache (valid 600 s); only failures that are not platform service errors
return Unknown without caching.  The error code 1060 only controls log
suppression: the failure is logged unless the code is 1060 and the name is
already cached. -/
theorem C2_amended_svc_error_caches (cache : List (String × SvcCacheEntry))
    (name : String) (now : ℚ) (code : Option Int)
    (h : ∀ e, cacheLookup cache name = some e →
      e.svcExists = true ∨ 600 ≤ now - e.lastCheck) :
    (check_service_status cache name now (.svcError code)).ret
        = (false, "unknown", "unknown") ∧
    cacheLookup (check_service_status cache name now (.svcError code)).cache name
        = some ⟨false, "unknown", "unknown", now⟩ ∧
    (check_service_status cache name now (.svcError code)).logged
        = !(code == some (1060 : Int) && (cacheLookup cache name).isSome) ∧
    (check_service_status cache name now .otherError).ret
        = (false, "unknown", "unknown") ∧
    (check_service_status cache name now .otherError).cache = cache := by
  have hq : ∀ os, check_service_status cache name now os = serviceQuery cache name now os := by
    intro os
    unfold check_service_status
    cases hc : cacheLookup cache name with
    | none => rfl
    | some e =>
        rcases h e hc with he | he
        · simp [he]
        · have : ¬ now - e.lastCheck < 600 := by linarith
          simp [this]
  have hlook : cacheLookup (cacheInsert cache name ⟨false, "unknown", "unknown", now⟩) name
      = some ⟨false, "unknown", "unknown", now⟩ := by
    simp [cacheLookup, cacheInsert]
  refine ⟨?_, ?_, ?_, ?_, ?_⟩ <;> simp [hq, serviceQuery, hlook]

/-- Witness for `C2_amended_svc_error_caches`: empty cache, error code 5. -/
theorem C2_amended_witness :
    (check_service_status [] "ACE-BASE" 0 (.svcError (some 5))).ret
        = (false, "unknown", "unknown") ∧
    cacheLookup (check_service_status [] "ACE-BASE" 0 (.svcError (some 5))).cache "ACE-BASE"
        = some ⟨false, "unknown", "unknown", 0⟩ ∧
    (check_service_status [] "ACE-BASE" 0 (.svcError (some 5))).logged
        = !((some 5 : Option Int) == some (1060 : Int) && (cacheLookup [] "ACE-BASE").isSome) ∧
    (check_service_status [] "ACE-BASE" 0 .otherError).ret
        = (false, "unknown", "unknown") ∧
    (check_service_status [] "ACE-BASE" 0 .otherError).cache = [] :=
  C2_amended_svc_error_caches [] "ACE-BASE" 0 (some 5)
    (by intro e he; simp [cacheLookup] at he)

/-- C8: for a service name not present on the host (every OS query raises
error 1060) and not yet cached, the first query returns
`exists = false` with unknown status/start-type and caches that negative
result; any repeated query within 600 seconds returns the identical triple
with `osInvoked = false` — whatever the OS would have answered — and leaves
the cache unchanged. -/
theorem C8_negative_cache (cache : List (String × SvcCacheEntry)) (name : String)
    (t t' : ℚ) (os2 : SvcQueryResult)
    (h0 : cacheLookup cache name = none) (h1 : t' - t < 600) :
    (check_service_status cache name t (.svcError (some 1060))).ret
        = (false, "unknown", "unknown") ∧
    (check_service_status cache name t (.svcError (some 1060))).osInvoked = true ∧
    (check_service_status
        (check_service_status cache name t (.svcError (some 1060))).cache
        name t' os2).ret = (false, "unknown", "unknown") ∧
    (check_service_status
        (check_service_status cache name t (.svcError (some 1060))).cache
        name t' os2).osInvoked = false ∧
    (check_service_status
        (check_service_status cache name t (.svcError (some 1060))).cache
        name t' os2).cache
      = (check_service_status cache name t (.svcError (some 1060))).cache := by
  have h1' : check_service_status cache name t (.svcError (some 1060))
      = serviceQuery cache name t (.svcError (some 1060)) := by
    unfold check_service_status
    simp [h0]
  have hcache : (check_service_status cache name t (.svcError (some 1060))).cache
      = cacheInsert cache name ⟨false, "unknown", "unknown", t⟩ := by
    simp [h1', serviceQuery]
  have hlook : cacheLookup (cacheInsert cache name ⟨false, "unknown", "unknown", t⟩) name
      = some ⟨false, "unknown", "unknown", t⟩ := by
    simp [cacheLookup, cacheInsert]
  refine ⟨by simp [h1', serviceQuery], by simp [h1', serviceQuery], ?_, ?_, ?_⟩ <;>
    · rw [hcache]
      unfold check_service_status
      simp [hlook, h1]

/-- Witness for `C8_negative_cache`: empty cache, queries at t = 0 and
t' = 30, second OS answer (ignored) a successful running/auto query. -/
theorem C8_witness :
    (check_service_status [] "ACE-GAME" 0 (.svcError (some 1060))).ret
        = (false, "unknown", "unknown") ∧
    (check_service_status [] "ACE-GAME" 0 (.svcError (some 1060))).osInvoked = true ∧
    (check_service_status
        (check_service_status [] "ACE-GAME" 0 (.svcError (some 1060))).cache
        "ACE-GAME" 30 (.ok 4 2)).ret = (false, "unknown", "unknown") ∧
    (check_service_status
        (check_service_status [] "ACE-GAME" 0 (.svcError (some 1060))).cache
        "ACE-GAME" 30 (.ok 4 2)).osInvoked = false ∧
    (check_service_status
        (check_service_status [] "ACE-GAME" 0 (.svcError (some 1060))).cache
        "ACE-GAME" 30 (.ok 4 2)).cache
      = (check_service_status [] "ACE-GAME" 0 (.svcError (some 1060))).cache :=
  C8_negative_cache [] "ACE-GAME" 0 30 (.ok 4 2)
    (by simp [cacheLookup]) (by norm_num)

/-! ## GameProcessMonitor.monitor_acetray_process

One poll iteration of the popup-monitor loop: if the popup process is
observed and `anticheat_killed` is not set, `kill_process` is attempted once;
whether it succeeds (message emitted) or fails (warning logged), the flag is
set to `True`.  If the process is observed and the flag is set, nothing
happens.  If the process is not observed, the flag resets to `False`.
`attempts` counts calls to `kill_process`, `messages` counts emitted
status events (notifications enabled). -/

structure AceObs where
  present : Bool
  killSucceeds : Bool
deriving DecidableEq

structure AceState where
  killed : Bool
  attempts : Nat
  messages : Nat
deriving DecidableEq

def aceStep (s : AceState) (obs : AceObs) : AceState :=
  if obs.present then
    if !s.killed then
      if obs.killSucceeds then
        { killed := true, attempts := s.attempts + 1, messages := s.messages + 1 }
      else
        { killed := true, attempts := s.attempts + 1, messages := s.messages }
    else s
  else { s with killed := false }

def aceRun (s : AceState) (trace : List AceObs) : AceState :=
  trace.foldl aceStep s

theorem aceRun_handled (n : Nat) (ks : Bool) (st : AceState)
    (h : st.killed = true) : aceRun st (List.replicate n ⟨true, ks⟩) = st := by
  induction n with
  | zero => rfl
  | succ n ih =>
      rw [List.replicate_succ]
      show aceRun (aceStep st ⟨true, ks⟩) (List.replicate n ⟨true, ks⟩) = st
      have : aceStep st ⟨true, ks⟩ = st := by simp [aceStep, h]
      rw [this, ih]

theorem aceRun_present_block (p : Nat) (hp : 1 ≤ p) (ks : Bool) :
    aceRun ⟨false, 0, 0⟩ (List.replicate p ⟨true, ks⟩)
      = ⟨true, 1, if ks then 1 else 0⟩ := by
  obtain ⟨p', rfl⟩ : ∃ p', p = p' + 1 := ⟨p - 1, by omega⟩
  rw [List.replicate_succ]
  show aceRun (aceStep ⟨false, 0, 0⟩ ⟨true, ks⟩) (List.replicate p' ⟨true, ks⟩)
      = ⟨true, 1, if ks then 1 else 0⟩
  have hstep : aceStep ⟨false, 0, 0⟩ ⟨true, ks⟩ = ⟨true, 1, if ks then 1 else 0⟩ := by
    cases ks <;> simp [aceStep]
  rw [hstep, aceRun_handled p' ks _ rfl]

/-- C3: popup-monitor loop.  Per-poll: while the process is observed with the
handled flag set, the state is unchanged (no further termination attempt);
when observed with the flag clear, exactly one attempt is made and the flag
is set whether the attempt succeeds or fails (a message is emitted only on
success); when not observed, the flag resets.  Over a trace in which the
process is continuously present for `p ≥ 1` polls, then absent once, then
present again for `q ≥ 1` polls, exactly two termination attempts occur —
one per appearance — and a continuously-present run with a successful first
attempt emits exactly one message. -/
theorem C3_popup_single_attempt (p q : Nat) (hp : 1 ≤ p) (hq : 1 ≤ q)
    (ks1 ks2 ks3 : Bool) (s : AceState) :
    aceStep s ⟨true, ks1⟩ = (if s.killed then s
      else ⟨true, s.attempts + 1, s.messages + (if ks1 then 1 else 0)⟩) ∧
    aceStep s ⟨false, ks1⟩ = { s with killed := false } ∧
    (aceRun ⟨false, 0, 0⟩ (List.replicate p ⟨true, ks1⟩)).attempts = 1 ∧
    (aceRun ⟨false, 0, 0⟩ (List.replicate p ⟨true, ks1⟩ ++ ⟨false, ks2⟩ ::
        List.replicate q ⟨true, ks3⟩)).attempts = 2 ∧
    (aceRun ⟨false, 0, 0⟩ (List.replicate p ⟨true, true⟩)).messages = 1 := by
  refine ⟨?_, ?_, ?_, ?_, ?_⟩
  · rcases s with ⟨k, a, m⟩
    cases k <;> cases ks1 <;> simp [aceStep]
  · simp [aceStep]
  · rw [aceRun_present_block p hp ks1]
  · show (aceRun ⟨false, 0, 0⟩ (List.replicate p ⟨true, ks1⟩ ++ (⟨false, ks2⟩ ::
        List.replicate q ⟨true, ks3⟩))).attempts = 2
    unfold aceRun
    rw [List.foldl_append]
    have h1 : List.foldl aceStep ⟨false, 0, 0⟩ (List.replicate p ⟨true, ks1⟩)
        = ⟨true, 1, if ks1 then 1 else 0⟩ := aceRun_present_block p hp ks1
    rw [h1]
    show (List.foldl aceStep (aceStep ⟨true, 1, if ks1 then 1 else 0⟩ ⟨false, ks2⟩)
        (List.replicate q ⟨true, ks3⟩)).attempts = 2
    have h2 : aceStep ⟨true, 1, if ks1 then 1 else 0⟩ ⟨false, ks2⟩
        = ⟨false, 1, if ks1 then 1 else 0⟩ := by simp [aceStep]
    rw [h2]
    obtain ⟨q', rfl⟩ : ∃ q', q = q' + 1 := ⟨q - 1, by omega⟩
    rw [List.replicate_succ]
    show (List.foldl aceStep (aceStep ⟨false, 1, if ks1 then 1 else 0⟩ ⟨true, ks3⟩)
        (List.replicate q' ⟨true, ks3⟩)).attempts = 2
    have h3 : aceStep ⟨false, 1, if ks1 then 1 else 0⟩ ⟨true, ks3⟩
        = ⟨true, 2, (if ks1 then 1 else 0) + (if ks3 then 1 else 0)⟩ := by
      cases ks3 <;> simp [aceStep]
    rw [h3]
    have := aceRun_handled q' ks3 ⟨true, 2, (if ks1 then 1 else 0) + (if ks3 then 1 else 0)⟩ rfl
    unfold aceRun at this
    rw [this]
  · rw [aceRun_present_block p hp true]
    rfl

/-- Witness for `C3_popup_single_attempt` at p = 3, q = 2, first kill
succeeding, second failing. -/
theorem C3_witness :
    aceStep ⟨false, 0, 0⟩ ⟨true, true⟩ = (if (⟨false, 0, 0⟩ : AceState).killed
      then (⟨false, 0, 0⟩ : AceState)
      else ⟨true, (⟨false, 0, 0⟩ : AceState).attempts + 1,
        (⟨false, 0, 0⟩ : AceState).messages + (if true then 1 else 0)⟩) ∧
    aceStep ⟨false, 0, 0⟩ ⟨false, true⟩ = { (⟨false, 0, 0⟩ : AceState) with killed := false } ∧
    (aceRun ⟨false, 0, 0⟩ (List.replicate 3 ⟨true, true⟩)).attempts = 1 ∧
    (aceRun ⟨false, 0, 0⟩ (List.replicate 3 ⟨true, true⟩ ++ ⟨false, false⟩ ::
        List.replicate 2 ⟨true, false⟩)).attempts = 2 ∧
    (aceRun ⟨false, 0, 0⟩ (List.replicate 3 ⟨true, true⟩)).messages = 1 :=
  C3_popup_single_attempt 3 2 (by decide) (by decide) true false false ⟨false, 0, 0⟩

/-! ## MemoryCleanerManager._cleaner_thread_func

One iteration of the cleaner thread body.  `clean_switches` is the 6-entry
boolean list; when any switch is on:

* timed branch: if switch 0, 1 or 2 is on and `current_time - last_clean_time
  > clean_interval`, the enabled timed cleans run, `last_clean_time` is set to
  `current_time` and `cleaned = True`;
* threshold branch: if `not cleaned`, switch 3, 4 or 5 is on and
  `current_time - _last_threshold_clean > cooldown_time`, memory is sampled;
  if the sample is available and `percent >= threshold` the enabled threshold
  cleans run and `_last_threshold_clean` is set to `current_time`.

`timedFired` / `thresholdFired` record whether the respective branch issued
its reclamation calls. -/

structure CleanSwitches where
  s0 : Bool
  s1 : Bool
  s2 : Bool
  s3 : Bool
  s4 : Bool
  s5 : Bool
deriving DecidableEq

def CleanSwitches.anyOn (sw : CleanSwitches) : Bool :=
  sw.s0 || sw.s1 || sw.s2 || sw.s3 || sw.s4 || sw.s5

structure CleanerIterState where
  lastCleanTime : ℚ
  lastThresholdClean : ℚ
deriving DecidableEq

structure CleanerIterResult where
  timedFired : Bool
  thresholdFired : Bool
  state : CleanerIterState
deriving DecidableEq

/-- The fixed-interval branch: `(cleaned, last_clean_time)` after it runs. -/
def timedBranch (sw : CleanSwitches) (cleanInterval : ℚ) (st : CleanerIterState)
    (now : ℚ) : Bool × ℚ :=
  if (sw.s0 || sw.s1 || sw.s2) = true ∧ now - st.lastCleanTime > cleanInterval
  then (true, now) else (false, st.lastCleanTime)

/-- The threshold branch: `(fired, _last_threshold_clean)` after it runs. -/
def thresholdBranch (sw : CleanSwitches) (threshold cooldownTime : ℚ)
    (lastThreshold : ℚ) (now : ℚ) (cleaned : Bool) (memPercent : Option ℚ) :
    Bool × ℚ :=
  if cleaned = false ∧ (sw.s3 || sw.s4 || sw.s5) = true ∧
      now - lastThreshold > cooldownTime then
    match memPercent with
    | some p => if p ≥ threshold then (true, now) else (false, lastThreshold)
    | none => (false, lastThreshold)
  else (false, lastThreshold)

def cleanerIteration (sw : CleanSwitches) (cleanInterval threshold cooldownTime : ℚ)
    (st : CleanerIterState) (now : ℚ) (memPercent : Option ℚ) : CleanerIterResult :=
  if sw.anyOn then
    let timed := timedBranch sw cleanInterval st now
    let thres := thresholdBranch sw threshold cooldownTime st.lastThresholdClean
      now timed.1 memPercent
    ⟨timed.1, thres.1, ⟨timed.2, thres.2⟩⟩
  else ⟨false, false, st⟩

theorem thresholdBranch_fires_iff (sw : CleanSwitches) (thr cd last now : ℚ)
    (cleaned : Bool) (mem : Option ℚ) :
    (thresholdBranch sw thr cd last now cleaned mem).1 = true ↔
      cleaned = false ∧ (sw.s3 || sw.s4 || sw.s5) = true ∧ now - last > cd ∧
        ∃ p, mem = some p ∧ p ≥ thr := by
  unfold thresholdBranch
  split
  · rename_i hc
    cases mem with
    | none => simp [hc]
    | some p =>
        by_cases hp : p ≥ thr
        · simp [hc, hp]
        · simp [hc, hp]
  · rename_i hc
    simp only [not_and, not_lt] at hc
    constructor
    · intro h
      simp at h
    · rintro ⟨h1, h2, h3, -⟩
      exact absurd (hc h1 h2) (not_le.mpr h3)

/-- C4: memory-reclaim cooldown.  A threshold-triggered clean fires only when
more than `cooldownTime` seconds — in particular at least `cooldownTime`
seconds — have elapsed since the last threshold-triggered clean; with
`cooldownTime = 60` and only threshold switches on, of two evaluations 30
seconds apart with memory at or above the threshold both times, the first
fires (and stamps the cooldown clock) while the second does not. -/
theorem C4_threshold_cooldown (sw : CleanSwitches) (interval thr : ℚ)
    (st0 : CleanerIterState) (t p1 p2 : ℚ)
    (sw' : CleanSwitches) (interval' thr' cd' : ℚ) (st' : CleanerIterState)
    (t' : ℚ) (mem' : Option ℚ)
    (hsw0 : sw.s0 = false) (hsw1 : sw.s1 = false) (hsw2 : sw.s2 = false)
    (hsw : (sw.s3 || sw.s4 || sw.s5) = true)
    (h1 : t - st0.lastThresholdClean > 60)
    (hp1 : p1 ≥ thr) (hp2 : p2 ≥ thr)
    (hfired : (cleanerIteration sw' interval' thr' cd' st' t' mem').thresholdFired
      = true) :
    (cleanerIteration sw interval thr 60 st0 t (some p1)).thresholdFired = true ∧
    (cleanerIteration sw interval thr 60 st0 t (some p1)).state.lastThresholdClean = t ∧
    (cleanerIteration sw interval thr 60
        (cleanerIteration sw interval thr 60 st0 t (some p1)).state
        (t + 30) (some p2)).thresholdFired = false ∧
    t' - st'.lastThresholdClean ≥ cd' := by
  have hany : sw.anyOn = true := by
    simp only [CleanSwitches.anyOn, hsw0, hsw1, hsw2, Bool.false_or]
    exact hsw
  have htimed : ∀ now : ℚ, ∀ st : CleanerIterState,
      timedBranch sw interval st now = (false, st.lastCleanTime) := by
    intro now st
    unfold timedBranch
    rw [if_neg (by simp [hsw0, hsw1, hsw2])]
  have hr1 : cleanerIteration sw interval thr 60 st0 t (some p1)
      = ⟨false, true, ⟨st0.lastCleanTime, t⟩⟩ := by
    unfold cleanerIteration
    rw [if_pos hany]
    simp only [htimed]
    unfold thresholdBranch
    rw [if_pos ⟨rfl, hsw, h1⟩]
    simp [hp1]
  have hr2 : (cleanerIteration sw interval thr 60 ⟨st0.lastCleanTime, t⟩
      (t + 30) (some p2)).thresholdFired = false := by
    unfold cleanerIteration
    rw [if_pos hany]
    simp only [htimed]
    unfold thresholdBranch
    rw [if_neg (by
      rintro ⟨-, -, hlt⟩
      linarith)]
  refine ⟨by rw [hr1], by rw [hr1], by rw [hr1]; exact hr2, ?_⟩
  revert hfired
  unfold cleanerIteration
  split
  · intro hfired
    have := (thresholdBranch_fires_iff sw' thr' cd'
      st'.lastThresholdClean t' (timedBranch sw' interval' st' t').1 mem').mp hfired
    linarith [this.2.2.1]
  · simp

/-- Witness for `C4_threshold_cooldown`: only switch 3 on, interval 300,
threshold 80, memory at 90% both times, first evaluation at t = 100 with the
cooldown clock at 0; the necessity instance fires at t' = 100 with cooldown
60. -/
theorem C4_witness :
    (cleanerIteration ⟨false, false, false, true, false, false⟩ 300 80 60
        ⟨0, 0⟩ 100 (some 90)).thresholdFired = true ∧
    (cleanerIteration ⟨false, false, false, true, false, false⟩ 300 80 60
        ⟨0, 0⟩ 100 (some 90)).state.lastThresholdClean = 100 ∧
    (cleanerIteration ⟨false, false, false, true, false, false⟩ 300 80 60
        (cleanerIteration ⟨false, false, false, true, false, false⟩ 300 80 60
          ⟨0, 0⟩ 100 (some 90)).state
        (100 + 30) (some 90)).thresholdFired = false ∧
    (100 : ℚ) - (⟨0, 0⟩ : CleanerIterState).lastThresholdClean ≥ 60 :=
  C4_threshold_cooldown ⟨false, false, false, true, false, false⟩ 300 80
    ⟨0, 0⟩ 100 90 90
    ⟨false, false, false, true, false, false⟩ 300 80 60 ⟨0, 0⟩ 100 (some 90)
    rfl rfl rfl rfl (by norm_num) (by norm_num) (by norm_num)
    (by norm_num [cleanerIteration, CleanSwitches.anyOn, timedBranch, thresholdBranch])

/-! ## WindowsPrivilegeManager._init_privileges

Three privilege tiers are requested in order; every privilege in every tier
is attempted with `_request_single_privilege` whatever the earlier outcomes
(the loops have no break), each attempt recording success or failure.  The
tier counters accumulate the successes and the `available_functions` flags
are derived from them; `debug_other_processes` keys off the debug privilege
(`SE_DEBUG_NAME = "SeDebugPrivilege"`) specifically.  The OS outcome of each
individual privilege request is the oracle `succ`. -/

def core_privileges : List String :=
  ["SeIncreaseQuotaPrivilege", "SeProfileSingleProcessPrivilege"]

def enhanced_privileges : List String :=
  ["SeDebugPrivilege", "SeIncreaseWorkingSetPrivilege", "SeManageVolumePrivilege"]

def process_privileges : List String :=
  ["SeIncreaseBasePriorityPrivilege", "SeSystemtimePrivilege"]

structure AvailableFunctions where
  trim_all_processes : Bool
  flush_system_cache : Bool
  memory_combine : Bool
  purge_standby_list : Bool
  debug_other_processes : Bool
  set_process_io_priority : Bool
  set_process_priority : Bool
deriving DecidableEq

structure PrivInitResult where
  details : List (String × Bool)
  coreAcquired : Nat
  enhancedAcquired : Nat
  processAcquired : Nat
  available : AvailableFunctions
deriving DecidableEq

def requestTier (succ : String → Bool) (privs : List String) :
    List (String × Bool) × Nat :=
  (privs.map fun p => (p, succ p), (privs.filter (fun p => succ p)).length)

def init_privileges (succ : String → Bool) : PrivInitResult :=
  let core := requestTier succ core_privileges
  let enhanced := requestTier succ enhanced_privileges
  let process := requestTier succ process_privileges
  let details := core.1 ++ enhanced.1 ++ process.1
  { details := details
    coreAcquired := core.2
    enhancedAcquired := enhanced.2
    processAcquired := process.2
    available :=
      { trim_all_processes := core.2 > 0
        flush_system_cache := core.2 > 0
        memory_combine := enhanced.2 > 0
        purge_standby_list := core.2 > 0
        debug_other_processes :=
          (details.find? (fun d => d.1 == "SeDebugPrivilege")).any Prod.snd
        set_process_io_priority := enhanced.2 > 0 || process.2 > 0
        set_process_priority := enhanced.2 > 0 || process.2 > 0 } }

/-- C5: privilege negotiation attempts every privilege of all three tiers
whatever the individual outcomes (the recorded attempt list is always the
full seven-privilege list, in tier order), and the capability flags are
derived from the tier success counts exactly as claimed:
`trim_all_processes`, `flush_system_cache` and `purge_standby_list` hold iff
at least one core-tier privilege succeeded; `memory_combine` iff at least one
enhanced-tier privilege succeeded; `set_process_io_priority` and
`set_process_priority` iff at least one enhanced-tier or process-tier
privilege succeeded; `debug_other_processes` iff the debug privilege itself
succeeded. -/
theorem C5_privilege_negotiation (succ : String → Bool) :
    (init_privileges succ).details.map Prod.fst
      = core_privileges ++ enhanced_privileges ++ process_privileges ∧
    ((init_privileges succ).available.trim_all_processes = true ↔
      (succ "SeIncreaseQuotaPrivilege" = true ∨
        succ "SeProfileSingleProcessPrivilege" = true)) ∧
    ((init_privileges succ).available.flush_system_cache = true ↔
      (succ "SeIncreaseQuotaPrivilege" = true ∨
        succ "SeProfileSingleProcessPrivilege" = true)) ∧
    ((init_privileges succ).available.purge_standby_list = true ↔
      (succ "SeIncreaseQuotaPrivilege" = true ∨
        succ "SeProfileSingleProcessPrivilege" = true)) ∧
    ((init_privileges succ).available.memory_combine = true ↔
      (succ "SeDebugPrivilege" = true ∨ succ "SeIncreaseWorkingSetPrivilege" = true ∨
        succ "SeManageVolumePrivilege" = true)) ∧
    ((init_privileges succ).available.set_process_io_priority = true ↔
      (succ "SeDebugPrivilege" = true ∨ succ "SeIncreaseWorkingSetPrivilege" = true ∨
        succ "SeManageVolumePrivilege" = true ∨
        succ "SeIncreaseBasePriorityPrivilege" = true ∨
        succ "SeSystemtimePrivilege" = true)) ∧
    ((init_privileges succ).available.set_process_priority = true ↔
      (succ "SeDebugPrivilege" = true ∨ succ "SeIncreaseWorkingSetPrivilege" = true ∨
        succ "SeManageVolumePrivilege" = true ∨
        succ "SeIncreaseBasePriorityPrivilege" = true ∨
        succ "SeSystemtimePrivilege" = true)) ∧
    ((init_privileges succ).available.debug_other_processes = true ↔
      succ "SeDebugPrivilege" = true) := by
  refine ⟨?_, ?_, ?_, ?_, ?_, ?_, ?_, ?_⟩ <;>
    simp [init_privileges, requestTier, core_privileges, enhanced_privileges,
      process_privileges, AvailableFunctions, List.filter, List.find?] <;>
    rcases h1 : succ "SeIncreaseQuotaPrivilege" <;>
    rcases h2 : succ "SeProfileSingleProcessPrivilege" <;>
    rcases h3 : succ "SeDebugPrivilege" <;>
    rcases h4 : succ "SeIncreaseWorkingSetPrivilege" <;>
    rcases h5 : succ "SeManageVolumePrivilege" <;>
    rcases h6 : succ "SeIncreaseBasePriorityPrivilege" <;>
    rcases h7 : succ "SeSystemtimePrivilege" <;>
    simp [h1, h2, h3, h4, h5, h6, h7]

/-! ## MemoryCleanerManager reclamation operations

`trim_process_working_set`: reads available memory, then — if brute mode is
on and the `trim_all_processes` capability is present — issues the single
`NtSetSystemInformation(SystemMemoryListInformation, MemoryEmptyWorkingSets)`
call; on a non-zero NTSTATUS it falls back to
`_trim_processes_individually`; otherwise (brute off or capability absent)
it calls `_trim_processes_individually` directly.  It then reads available
memory again, records `max(0, (after - before) / 2^20)` MB through
`_record_cleaned_memory` and returns that value.

`_trim_processes_individually` iterates every process; with the
`debug_other_processes` capability it opens each with `PROCESS_ALL_ACCESS`,
otherwise it first tries `PROCESS_QUERY_INFORMATION | PROCESS_SET_QUOTA` and
then `PROCESS_QUERY_LIMITED_INFORMATION | PROCESS_SET_QUOTA`; a process whose
handles cannot be opened (or whose trim raises) is skipped silently.

`flush_system_buffer` and `clean_memory_all` issue their own privileged
calls (whose status codes are logged but do not influence the recorded
value) and record the same clamped before/after delta; on an exception each
operation returns 0 MB without recording.  `_record_cleaned_memory` adds the
value to `total_cleaned_mb`, stores it in `last_cleaned_mb`, increments
`clean_count` and stamps `last_clean_time`. -/

inductive HandleKind where
  | allAccess
  | setQuota
  | limitedQuota
deriving DecidableEq

/-- Whether the access level is one of the two reduced-access fallbacks
(everything except `PROCESS_ALL_ACCESS`). -/
def HandleKind.lowPrivilege : HandleKind → Bool
  | .allAccess => false
  | .setQuota => true
  | .limitedQuota => true

def trimIndividually (useDebug : Bool) (openOk : Nat → HandleKind → Bool)
    (procs : List Nat) : List (Nat × Option HandleKind) :=
  procs.map fun pid =>
    if useDebug then
      (pid, if openOk pid .allAccess then some .allAccess else none)
    else
      if openOk pid .setQuota then (pid, some .setQuota)
      else if openOk pid .limitedQuota then (pid, some .limitedQuota)
      else (pid, none)

structure CleanStats where
  totalCleanedMb : ℚ
  lastCleanedMb : ℚ
  cleanCount : Nat
  lastCleanTime : Option ℚ
deriving DecidableEq

def record_cleaned_memory (s : CleanStats) (mb : ℚ) (now : ℚ) : CleanStats :=
  { totalCleanedMb := s.totalCleanedMb + mb
    lastCleanedMb := mb
    cleanCount := s.cleanCount + 1
    lastCleanTime := some now }

/-- The clamped before/after delta recorded by every reclamation
operation: `max(0, (after_available - before_available) / (1024 * 1024))`. -/
def cleanedDelta (beforeAvail afterAvail : ℚ) : ℚ :=
  max 0 ((afterAvail - beforeAvail) / (1024 * 1024))

structure TrimResult where
  bruteCallIssued : Bool
  individualUsed : Bool
  handles : List (Nat × Option HandleKind)
  cleanedMb : ℚ
  stats : CleanStats
deriving DecidableEq

def trim_process_working_set (bruteMode trimAllCap debugCap : Bool)
    (bruteStatus : Int) (openOk : Nat → HandleKind → Bool) (procs : List Nat)
    (beforeAvail afterAvail now : ℚ) (stats : CleanStats) : TrimResult :=
  let useBrute := bruteMode && trimAllCap
  let indiv := if useBrute then bruteStatus != 0 else true
  let handles := if indiv then trimIndividually debugCap openOk procs else []
  let cleaned := cleanedDelta beforeAvail afterAvail
  { bruteCallIssued := useBrute
    individualUsed := indiv
    handles := handles
    cleanedMb := cleaned
    stats := record_cleaned_memory stats cleaned now }

def flush_system_buffer (exc : Bool) (flushStatus : Int)
    (beforeAvail afterAvail now : ℚ) (stats : CleanStats) : ℚ × CleanStats :=
  if exc then (0, stats)
  else
    let cleaned := cleanedDelta beforeAvail afterAvail
    (cleaned, record_cleaned_memory stats cleaned now)

def clean_memory_all (exc : Bool) (stepStatuses : List Int)
    (beforeAvail afterAvail now : ℚ) (stats : CleanStats) : ℚ × CleanStats :=
  if exc then (0, stats)
  else
    let cleaned := cleanedDelta beforeAvail afterAvail
    (cleaned, record_cleaned_memory stats cleaned now)

/-- C6: `trim_process_working_set` issues the single system-wide
empty-working-sets call exactly when brute mode is selected and the
`trim_all_processes` capability is present; the individual per-process path
runs exactly unless that brute call was issued and returned status 0 (so a
non-zero status falls back to it, and brute-off or capability-absent goes
straight to it); with the debug capability absent every opened handle is one
of the two low-privilege access levels; every process is visited (per-process
open failures are skipped, not fatal) and the operation always completes,
returning the clamped delta and recording it. -/
theorem C6_trim_brute_fallback (bruteMode trimAllCap debugCap : Bool)
    (bruteStatus : Int) (openOk : Nat → HandleKind → Bool) (procs : List Nat)
    (beforeAvail afterAvail now : ℚ) (stats : CleanStats) :
    (trim_process_working_set bruteMode trimAllCap debugCap bruteStatus openOk
        procs beforeAvail afterAvail now stats).bruteCallIssued
      = (bruteMode && trimAllCap) ∧
    (trim_process_working_set bruteMode trimAllCap debugCap bruteStatus openOk
        procs beforeAvail afterAvail now stats).individualUsed
      = !(bruteMode && trimAllCap && bruteStatus == 0) ∧
    (trimIndividually false openOk procs).all
        (fun e => e.2.all HandleKind.lowPrivilege) = true ∧
    (trimIndividually debugCap openOk procs).length = procs.length ∧
    (trim_process_working_set bruteMode trimAllCap debugCap bruteStatus openOk
        procs beforeAvail afterAvail now stats).cleanedMb
      = cleanedDelta beforeAvail afterAvail ∧
    (trim_process_working_set bruteMode trimAllCap debugCap bruteStatus openOk
        procs beforeAvail afterAvail now stats).stats
      = record_cleaned_memory stats (cleanedDelta beforeAvail afterAvail) now := by
  refine ⟨rfl, ?_, ?_, ?_, rfl, rfl⟩
  · show (if bruteMode && trimAllCap then bruteStatus != 0 else true)
        = !(bruteMode && trimAllCap && bruteStatus == 0)
    cases bruteMode <;> cases trimAllCap <;> simp [bne]
  · simp only [trimIndividually, List.all_eq_true]
    intro e he
    simp only [List.mem_map] at he
    obtain ⟨pid, -, rfl⟩ := he
    by_cases h1 : openOk pid .setQuota
    · simp [h1, HandleKind.lowPrivilege]
    · by_cases h2 : openOk pid .limitedQuota
      · simp [h1, h2, HandleKind.lowPrivilege]
      · simp [h1, h2]
  · simp [trimIndividually]

/-- C9: CleanStats monotonicity.  The recorded reclaimed-MB value of every
reclamation operation is the before/after delta clamped at 0, hence
non-negative; each completed operation (`trim_process_working_set`, and the
non-exception branches of `flush_system_buffer` and `clean_memory_all`)
leaves `total_cleaned_mb` no smaller and increments `clean_count` by exactly
one, while the exception branches leave the statistics untouched — no
modeled operation ever decreases or resets them. -/
theorem C9_cleanstats_monotone (beforeAvail afterAvail now : ℚ)
    (stats : CleanStats) (bruteMode trimAllCap debugCap : Bool)
    (bruteStatus flushStatus : Int) (stepStatuses : List Int)
    (openOk : Nat → HandleKind → Bool) (procs : List Nat) :
    0 ≤ cleanedDelta beforeAvail afterAvail ∧
    stats.totalCleanedMb ≤
      (trim_process_working_set bruteMode trimAllCap debugCap bruteStatus openOk
        procs beforeAvail afterAvail now stats).stats.totalCleanedMb ∧
    (trim_process_working_set bruteMode trimAllCap debugCap bruteStatus openOk
        procs beforeAvail afterAvail now stats).stats.cleanCount
      = stats.cleanCount + 1 ∧
    (flush_system_buffer false flushStatus beforeAvail afterAvail now stats).2
      = record_cleaned_memory stats (cleanedDelta beforeAvail afterAvail) now ∧
    (clean_memory_all false stepStatuses beforeAvail afterAvail now stats).2
      = record_cleaned_memory stats (cleanedDelta beforeAvail afterAvail) now ∧
    stats.totalCleanedMb ≤
      (record_cleaned_memory stats (cleanedDelta beforeAvail afterAvail) now).totalCleanedMb ∧
    (record_cleaned_memory stats (cleanedDelta beforeAvail afterAvail) now).cleanCount
      = stats.cleanCount + 1 ∧
    (flush_system_buffer true flushStatus beforeAvail afterAvail now stats).2 = stats ∧
    (clean_memory_all true stepStatuses beforeAvail afterAvail now stats).2 = stats := by
  have hd : 0 ≤ cleanedDelta beforeAvail afterAvail := le_max_left 0 _
  refine ⟨hd, ?_, rfl, rfl, rfl, ?_, rfl, rfl, rfl⟩ <;>
    · show stats.totalCleanedMb ≤ stats.totalCleanedMb + cleanedDelta beforeAvail afterAvail
      linarith

/-! ## ProcessIoPriorityManager.set_process_io_priority

The apply operation runs four sub-steps.  Step 1 (`_set_io_priority`) is
gating: if it reports failure the function logs and returns `False` at once,
without attempting the other steps.  Steps 2–4 (CPU priority class, CPU
affinity, power throttling) are attempted and their outcomes recorded in the
`results` dict but the function finally returns `results['io']` — the other
outcomes never influence the returned value.  The outer `try` converts any
escaping exception into a `False` return.  Each sub-step outcome and the
exception possibility are explicit booleans. -/

def set_process_io_priority (exc ioOk cpuOk affOk powerOk : Bool) : Bool :=
  if exc then false
  else if ioOk = false then false
  else ioOk

/-- C7: `set_process_io_priority` returns true iff the I/O-priority sub-step
succeeds and no exception escapes; the CPU-priority, CPU-affinity and
power-throttle outcomes never change the returned value. -/
theorem C7_io_priority_gates_result (exc ioOk cpuOk affOk powerOk : Bool) :
    set_process_io_priority exc ioOk cpuOk affOk powerOk = (!exc && ioOk) := by
  cases exc <;> cases ioOk <;> rfl

end ACEKiller
